import Mathlib

/-!
A shallow embedding of the core of the TemPy document-tree builder
(file tempy/tempy.py): the attribute container TagAttrs, the element
tree with its stability-based render cache, the Content placeholder
resolution, the Css renderer, and the heap-level DOM mutation
primitives of DOMElement.  Each definition is translated from the
Python source; Python-semantics details (truthiness, lazy iterators,
slice errors, argument arity) are modelled explicitly where the
translated code depends on them.
-/

set_option maxRecDepth 4000

namespace TemPy

/-- Python exceptions that the embedded code paths can raise. -/
inductive PyErr where
  | stopIteration
  | typeError
  | valueError
  | keyError
  | attributeError
  deriving DecidableEq

/-- Python values as they occur in TemPy attribute containers and
content data: strings, None, lists and (insertion-ordered) dicts. -/
inductive PyVal where
  | str (s : String)
  | vNone
  | list (l : List PyVal)
  | dict (m : List (String × PyVal))
  deriving Inhabited

/-- Python truthiness for the modelled values: empty string, None,
empty list and empty dict are falsy. -/
def pyTruthy : PyVal → Bool
  | .str s => !s.isEmpty
  | .vNone => false
  | .list l => !l.isEmpty
  | .dict m => !m.isEmpty

/-- Python str() restricted to the scalar values the embedded code
stringifies; container values never reach str() in the modelled
scenarios. -/
def pyStr : PyVal → String
  | .str s => s
  | .vNone => "None"
  | .list _ => ""
  | .dict _ => ""

/-! ## The attribute container TagAttrs

A Python dict preserves insertion order, so TagAttrs is embedded as an
association list.  Assignment to an existing key keeps its position;
a new key is appended at the end. -/

/-- Lookup in an insertion-ordered dict (dict.__getitem__ / in). -/
def alookup : List (String × PyVal) → String → Option PyVal
  | [], _ => none
  | (k, v) :: rest, key => if k = key then some v else alookup rest key

/-- Dict assignment d[k] = v: overwrite in place, append if new. -/
def assocSet : List (String × PyVal) → String → PyVal → List (String × PyVal)
  | [], k, v => [(k, v)]
  | (k', v') :: rest, k, v =>
    if k' = k then (k', v) :: rest else (k', v') :: assocSet rest k v

/-- Apply f to the value stored at key k, leaving other entries alone.
Used to model in-place mutation of a stored container value. -/
def assocMap (l : List (String × PyVal)) (k : String) (f : PyVal → PyVal) :
    List (String × PyVal) :=
  l.map (fun kv => if kv.1 = k then (kv.1, f kv.2) else kv)

/-- dict.update: assign every pair of the argument in order. -/
def dictUpdate (old upd : List (String × PyVal)) : List (String × PyVal) :=
  upd.foldl (fun acc kv => assocSet acc kv.1 kv.2) old

/-- TagAttrs._MULTI_VALUES_ATTRS. -/
def MULTI_VALUES_ATTRS : List String := ["klass", "typ"]

/-- TagAttrs._MAPPING_ATTRS. -/
def MAPPING_ATTRS : List String := ["style"]

/-- TagAttrs.__setitem__: multi-value keys accumulate into a list
(initialised on first write), mapping keys merge via dict.update
(initialised on first write), all other keys overwrite. -/
def setItem (a : List (String × PyVal)) (k : String) (v : PyVal) :
    List (String × PyVal) :=
  if k ∈ MULTI_VALUES_ATTRS then
    let a := if (alookup a k).isNone then a ++ [(k, .list [])] else a
    assocMap a k (fun old =>
      match old with
      | .list l => .list (l ++ [v])
      | o => o)
  else if k ∈ MAPPING_ATTRS then
    let a := if (alookup a k).isNone then a ++ [(k, .dict [])] else a
    assocMap a k (fun old =>
      match old, v with
      | .dict m, .dict upd => .dict (dictUpdate m upd)
      | o, _ => o)
  else
    assocSet a k v

/-- TagAttrs.update restricted to a mapping argument: __setitem__ for
every pair in order. -/
def updateAttrs (a : List (String × PyVal)) (kvs : List (String × PyVal)) :
    List (String × PyVal) :=
  kvs.foldl (fun acc kv => setItem acc kv.1 kv.2) a

/-- TagAttrs._SPECIALS: reserved-word key substitution at render time. -/
def specialName (k : String) : String :=
  if k = "klass" then "class" else if k = "typ" then "type" else k

/-- TagAttrs._FORMAT: per-key value formatter (style renders the
sub-mapping as space-joined name: value; pairs, class lists join with
spaces, the comment pseudo-key is identity, default is str()). -/
def formatVal (k : String) (v : PyVal) : String :=
  if k = "style" then
    match v with
    | .dict m => " ".intercalate (m.map (fun kv => kv.1 ++ ": " ++ pyStr kv.2 ++ ";"))
    | o => pyStr o
  else if k = "klass" ∨ k = "typ" then
    match v with
    | .list l => " ".intercalate (l.map pyStr)
    | o => pyStr o
  else
    pyStr v

/-- One attribute's contribution to TagAttrs.render: falsy values are
omitted entirely. -/
def attrPiece (kv : String × PyVal) : String :=
  if pyTruthy kv.2 then
    " " ++ specialName kv.1 ++ "=\x22" ++ formatVal kv.1 kv.2 ++ "\x22"
  else ""

/-- TagAttrs.render (the non-comment branch): the empty-separator join
of the formatted pieces in insertion order. -/
def renderAttrs : List (String × PyVal) → String
  | [] => ""
  | kv :: rest => attrPiece kv ++ renderAttrs rest

/-! ## Tag attribute mutators (Tag.css, Tag.add_class, Tag.hide,
Tag.show, Tag.toggle), modelled on the attribute container they
manipulate. -/

/-- Tag.css with a single mapping argument: routes through
Tag.attr / TagAttrs.update as attrs={style: styles}. -/
def cssOp (a : List (String × PyVal)) (styles : List (String × PyVal)) :
    List (String × PyVal) :=
  updateAttrs a [("style", .dict styles)]

/-- Tag.add_class: self.attrs[klass].append(cssclass).  Plain dict
lookup of a missing klass key raises KeyError; TagAttrs overrides only
__setitem__, not __getitem__.  A stored non-list value would lack an
append method (AttributeError); that state is unreachable. -/
def addClassOp (a : List (String × PyVal)) (c : String) :
    Except PyErr (List (String × PyVal)) :=
  match alookup a "klass" with
  | none => .error .keyError
  | some (.list l) => .ok (assocMap a "klass" (fun _ => .list (l ++ [.str c])))
  | some _ => .error .attributeError

/-- Tag.hide: self.attrs[style][display] = None.  Dict lookup of a
missing style key raises KeyError. -/
def hideOp (a : List (String × PyVal)) : Except PyErr (List (String × PyVal)) :=
  match alookup a "style" with
  | none => .error .keyError
  | some (.dict m) => .ok (assocMap a "style" (fun _ => .dict (assocSet m "display" .vNone)))
  | some _ => .error .typeError

/-- Tag.show: self.attrs[style].pop(display); dict.pop with no default
raises KeyError when the key is missing. -/
def showOp (a : List (String × PyVal)) : Except PyErr (List (String × PyVal)) :=
  match alookup a "style" with
  | none => .error .keyError
  | some (.dict m) =>
    match alookup m "display" with
    | none => .error .keyError
    | some _ => .ok (assocMap a "style" (fun _ => .dict (m.filter (fun kv => kv.1 ≠ "display"))))
  | some _ => .error .typeError

/-- Tag.toggle: reads self.attrs[style][display], so a missing style
key raises KeyError before either branch runs. -/
def toggleOp (a : List (String × PyVal)) : Except PyErr (List (String × PyVal)) :=
  match alookup a "style" with
  | none => .error .keyError
  | some (.dict m) =>
    match alookup m "display" with
    | none => .error .keyError
    | some .vNone => showOp a
    | some _ => hideOp a
  | some _ => .error .typeError

/-! ## The element tree and its render cache

Nodes are either tags (DOMElement + Tag), content placeholders
(Content) or raw values kept verbatim in a child list.  A tag carries
its tag name (the class-level __tag of the concrete subclasses), its
TagAttrs, the _stable flag, the _render cache and its content_data.
Void tags, the template argument of Content and last-minute render
arguments are not exercised by any claim and are not modelled. -/

inductive Node where
  | tag (tagName : String) (attrs : List (String × PyVal)) (stable : Bool)
      (cache : Option String) (contentData : List (String × PyVal))
      (childs : List Node)
  | content (cName : String) (fixed : Option PyVal)
  | raw (s : String)

/-- DOMElement._find_content along the ancestor chain (nearest
ancestor's content_data first): own binding wins, else the parent is
searched, and the root falls back to the empty string. -/
def findContent : List (List (String × PyVal)) → String → PyVal
  | [], _ => .str ""
  | d :: rest, name =>
    match alookup d name with
    | some v => v
    | none => findContent rest name

/-- Content.content normalisation: lists stay lists; a string is
Iterable and the guard content is not str compares the instance with
the str type (always true), so a string is exploded into its
characters; iterating a dict yields its keys; any other value becomes
a one-element tuple. -/
def normalizeContent : PyVal → List PyVal
  | .list l => l
  | .str s => s.toList.map (fun ch => PyVal.str (String.singleton ch))
  | .dict m => m.map (fun kv => PyVal.str kv.1)
  | v => [v]

/-- Content.content: fixed content or-else ancestor lookup; a falsy
result raises StopIteration. -/
def contentProp (chain : List (List (String × PyVal))) (name : String)
    (fixed : Option PyVal) : Except PyErr (List PyVal) :=
  let c : PyVal :=
    match fixed with
    | some f => if pyTruthy f then f else findContent chain name
    | none => findContent chain name
  if pyTruthy c then .ok (normalizeContent c) else .error .stopIteration

/-- Content.render without a template: stringify and join the resolved
items; the StopIteration raised by the content property propagates out
of render to the caller. -/
def contentRender (chain : List (List (String × PyVal))) (name : String)
    (fixed : Option PyVal) : Except PyErr String :=
  match contentProp chain name fixed with
  | .error e => .error e
  | .ok items => .ok (String.join (items.map pyStr))

mutual
/-- Tag.render (and Content.render for placeholder nodes): if the
element's own _stable flag is set and a cached _render string is truthy
the cache is returned as is — no recursive stability check happens
here.  Otherwise the tag name, the rendered attributes and the child
renders are assembled per the template, the result is cached and the
flag set.  The chain argument carries the ancestors' content_data for
placeholder resolution.  Returns the render result together with the
post-render tree (caches written into the visited nodes). -/
def renderNode (chain : List (List (String × PyVal))) :
    Node → Except PyErr String × Node
  | .raw s => (.ok s, .raw s)
  | .content n f => (contentRender chain n f, .content n f)
  | .tag tn a st ca cd cs =>
    let cached := ca.getD ""
    if st && !cached.isEmpty then (.ok cached, .tag tn a st ca cd cs)
    else
      let (inner, cs') :=
        if cs.isEmpty then ("", cs) else renderChilds (cd :: chain) cs
      let s := "<" ++ tn ++ renderAttrs a ++ ">" ++ inner ++ "</" ++ tn ++ ">"
      (.ok s, .tag tn a true (some s) cd cs')
/-- Tag._get_child_renders: a str.join over a generator expression of
the child renders.  Under the generator semantics the source runs with
(pre-PEP-479), a StopIteration escaping a child render silently ends
the generator, so join sees the truncated sequence: the failing
placeholder and every later sibling contribute nothing.  StopIteration
is the only error a child render can produce. -/
def renderChilds (chain : List (List (String × PyVal))) :
    List Node → String × List Node
  | [] => ("", [])
  | c :: cs =>
    match renderNode chain c with
    | (.ok s, c') =>
      let (rest, cs') := renderChilds chain cs
      (s ++ rest, c' :: cs')
    | (.error _, c') => ("", c' :: cs)
end

mutual
/-- Discard the cached render and the stability flag of a node and of
its whole subtree (the recompute-from-scratch baseline). -/
def clearCache : Node → Node
  | .tag tn a _ _ cd cs => .tag tn a false none cd (clearCacheList cs)
  | n => n
def clearCacheList : List Node → List Node
  | [] => []
  | c :: cs => clearCache c :: clearCacheList cs
end

/-- Tag.attr: clears the element's own _stable flag (only its own) and
merges the given attributes through TagAttrs.update.  The cached
_render string is left in place. -/
def attrOp (kvs : List (String × PyVal)) : Node → Node
  | .tag tn a _ ca cd cs => .tag tn (updateAttrs a kvs) false ca cd cs
  | n => n

/-- Mutate the i-th child object in place (Python aliasing: the child
inside the parent's list is the same object the caller mutates). -/
def withChild (i : Nat) (f : Node → Node) : Node → Node
  | .tag tn a st ca cd cs => .tag tn a st ca cd (cs.set i (f (cs.getD i (.raw ""))))
  | n => n

/-! ## The Css style-sheet renderer -/

/-- Values of the nested rule mapping handed to Css: strings,
zero-argument callables (modelled by their return value) and nested
mappings. -/
inductive CssVal where
  | str (s : String)
  | func (ret : String)
  | dict (entries : List (String × CssVal))

/-- One declaration line of Css.render: percent-formatting of key,
value and the pretty newline (empty in compact mode). -/
def cssDecl (pretty : Bool) (k v : String) : String :=
  k ++ ": " ++ v ++ "; " ++ (if pretty then "\n" else "")

/-- The while-loop of Css.render: pop a (selector-path, node) pair from
the front of the queue, emit the space-joined header when the path is
non-empty, emit each scalar or called declaration, enqueue each nested
mapping with the path extended by its key, then run the block-closing
append.  That closing line computes the string "\x7d" + "\n\n" if
pretty else "" — by Python operator precedence the conditional governs
the whole concatenation, so compact mode appends the empty string and
never a closing brace.  The fuel argument bounds the loop: every
enqueued node is a strict sub-mapping of a popped one, so the loop
terminates and any fuel at least the iteration count gives the loop's
result. -/
def cssLoop (pretty : Bool) :
    Nat → List (List String × List (String × CssVal)) → List String → List String
  | 0, _, result => result
  | _, [], result => result
  | fuel + 1, (parents, node) :: rest, result =>
    let result :=
      if !parents.isEmpty then result ++ [" ".intercalate parents ++ " \x7b "]
      else result
    let step := node.foldl
      (fun acc kv =>
        match kv.2 with
        | .str s => (acc.1 ++ [cssDecl pretty kv.1 s], acc.2)
        | .func s => (acc.1 ++ [cssDecl pretty kv.1 s], acc.2)
        | .dict m => (acc.1, acc.2 ++ [(parents ++ [kv.1], m)]))
      (result, ([] : List (List String × List (String × CssVal))))
    let result :=
      if !step.1.isEmpty then step.1 ++ [if pretty then "\x7d\n\n" else ""]
      else step.1
    cssLoop pretty fuel (rest ++ step.2) result

/-- Css.render: run the queue loop on the attribute mapping and wrap
the joined pieces in the style template. -/
def cssRender (attrs : List (String × CssVal)) (pretty : Bool) : String :=
  "<style>" ++ String.join (cssLoop pretty 1000 [([], attrs)] []) ++ "</style>"

/-! ## The DOM mutation primitives on a heap of node objects

Python objects are mutated through aliases, so the structural
operations of DOMElement are embedded over an explicit heap: node
identities are naturals, each object holds its child list (as ids),
its parent reference and its _stable flag.  Attributes, content data
and names play no role in these claims and are not carried here. -/

structure Obj where
  childs : List Nat
  parent : Option Nat
  stable : Bool

abbrev Heap := Nat → Obj

def Heap.set (h : Heap) (i : Nat) (o : Obj) : Heap :=
  fun j => if j = i then o else h j

def setStable (h : Heap) (i : Nat) (b : Bool) : Heap :=
  h.set i { h i with stable := b }

/-- Python list.insert: positions past the end append. -/
def pyInsert (l : List Nat) (i : Nat) (x : Nat) : List Nat :=
  l.take i ++ [x] ++ l.drop i

/-- Python list.pop(i) on an in-range index: drop the i-th element. -/
def pyRemoveAt (l : List Nat) (i : Nat) : List Nat :=
  l.take i ++ l.drop (i + 1)

/-- DOMElement._insert: clamp a truthy negative index to 0, then
prepend at 0, use the index, or default to the end; push the child
into the child list and set its parent to self.  The incoming child is
never detached from a previous parent.  The named-child attribute
aliasing has no bearing on these claims and is not modelled. -/
def insertOp (h : Heap) (selfId childId : Nat) (idx : Option Int)
    (prepend : Bool) : Heap :=
  let idx := idx.map (fun i => if i < 0 then 0 else i)
  let so := h selfId
  let pos : Nat :=
    if prepend then 0
    else
      match idx with
      | some i => i.toNat
      | none => so.childs.length
  let h := h.set selfId { so with childs := pyInsert so.childs pos childId }
  let co := h childId
  h.set childId { co with parent := some selfId }

/-- DOMElement._own_index: the node's position in its parent's child
list, or None for a rootless node. -/
def ownIndex (h : Heap) (selfId : Nat) : Option Nat :=
  match (h selfId).parent with
  | some p => (h p).childs.findIdx? (· == selfId)
  | none => none

/-- DOMElement.pop: clears the stable flag; an index that is None or 0
is falsy, so the default of the last position applies; the popped
element's parent reference is cleared. -/
def popOp (h : Heap) (selfId : Nat) (idx : Option Nat) : Heap :=
  let so := h selfId
  let i :=
    match idx with
    | none => so.childs.length - 1
    | some 0 => so.childs.length - 1
    | some j => j
  let elem := so.childs[i]?
  let h := h.set selfId { so with stable := false, childs := pyRemoveAt so.childs i }
  match elem with
  | some e => h.set e { h e with parent := none }
  | none => h

/-- DOMElement.remove: guarded by the truthiness of _own_index and the
parent — a node at child position 0 (or without a parent) is left
untouched.  When the guard passes, the body calls
self.parent.pop(i=self._own_index), but pop's parameter is named idx,
so the call raises TypeError at argument binding and pop's body never
runs: no child is removed and no flag is touched on either path. -/
def removeOp (h : Heap) (selfId : Nat) : Heap × Except PyErr Unit :=
  match ownIndex h selfId, (h selfId).parent with
  | some (_ + 1), some _ => (h, .error .typeError)
  | _, _ => (h, .ok ())

/-- DOMElement.empty: clears the stable flag and builds
map(lambda child: self.pop(child._own_index), self.childs) — a lazy
iterator in Python 3 that is never consumed, so no pop ever runs and
the child list is left as it was. -/
def emptyOp (h : Heap) (selfId : Nat) : Heap :=
  setStable h selfId false

/-- Positional arguments of the child-accepting operations: a node or
an ordered/lazy sequence to be flattened. -/
inductive Arg where
  | node (id : Nat)
  | seq (items : List Arg)

mutual
/-- One item of DOMElement._yield_items: an unnamed sequence is
flattened by a recursive call whose enumeration restarts at 0; a plain
node is yielded with the current top-level index. -/
def yieldOne (i : Nat) : Arg → List (Nat × Nat)
  | .node n => [(i, n)]
  | .seq l => yieldSeq 0 l
/-- The enumerate(chain(...)) walk of DOMElement._yield_items over the
positional items in order (the reverse=False case). -/
def yieldSeq (i : Nat) : List Arg → List (Nat × Nat)
  | [] => []
  | a :: rest => yieldOne i a ++ yieldSeq (i + 1) rest
end

/-- DOMElement._yield_items: verse = (1, 0)[reverse], so reverse=True
selects slice step 0 and items[::0] raises ValueError before anything
is yielded; reverse=False walks the items in order. -/
def yieldItems (items : List Arg) (reverse : Bool) :
    Except PyErr (List (Nat × Nat)) :=
  if reverse then .error .valueError
  else .ok (yieldSeq 0 items)

/-- DOMElement.__call__ through the content_receiver wrapper: for each
flattened item the wrapper clears the stable flag and the body calls
self._insert(child).  The __call__ body takes the index parameter, so
its arity matches the wrapper's three-argument call. -/
def callOp (h : Heap) (selfId : Nat) (items : List Arg) :
    Heap × Except PyErr Unit :=
  match yieldItems items false with
  | .error e => (h, .error e)
  | .ok l =>
    (l.foldl (fun h it => insertOp (setStable h selfId false) selfId it.2 none false) h,
     .ok ())

/-- DOMElement.append through the content_receiver wrapper: the wrapper
calls func(inst, i, tag) with three positional arguments, but append is
declared with only (self, child), so the first flattened item raises
TypeError — after the wrapper has already cleared the stable flag.
With nothing to flatten the loop body never runs. -/
def appendOp (h : Heap) (selfId : Nat) (items : List Arg) :
    Heap × Except PyErr Unit :=
  match yieldItems items false with
  | .error e => (h, .error e)
  | .ok [] => (h, .ok ())
  | .ok (_ :: _) => (setStable h selfId false, .error .typeError)

/-- DOMElement.after: for each flattened (i, child) the wrapper clears
the stable flag and the body inserts into the parent at
_own_index + 1 + i (recomputing _own_index each iteration); a rootless
node has no parent to insert into (AttributeError on None). -/
def afterOp (h : Heap) (selfId : Nat) (items : List Arg) :
    Heap × Except PyErr Unit :=
  match yieldItems items false with
  | .error e => (h, .error e)
  | .ok l =>
    l.foldl
      (fun acc it =>
        match acc with
        | (h, .error e) => (h, .error e)
        | (h, .ok ()) =>
          let h := setStable h selfId false
          match (h selfId).parent, ownIndex h selfId with
          | some p, some oi =>
            (insertOp h p it.2 (some ((oi : Int) + 1 + (it.1 : Int))) false, .ok ())
          | _, _ => (h, .error .attributeError))
      (h, .ok ())

/-- DOMElement.before: flattening runs with reverse=True, so
_yield_items raises ValueError (slice step 0) before any insertion;
the insertion body at _own_index - i is kept for faithfulness but is
unreachable. -/
def beforeOp (h : Heap) (selfId : Nat) (items : List Arg) :
    Heap × Except PyErr Unit :=
  match yieldItems items true with
  | .error e => (h, .error e)
  | .ok l =>
    l.foldl
      (fun acc it =>
        match acc with
        | (h, .error e) => (h, .error e)
        | (h, .ok ()) =>
          let h := setStable h selfId false
          match (h selfId).parent, ownIndex h selfId with
          | some p, some oi =>
            (insertOp h p it.2 (some ((oi : Int) - (it.1 : Int))) false, .ok ())
          | _, _ => (h, .error .attributeError))
      (h, .ok ())

/-! ## Concrete trees and heaps used by the evaluations -/

/-- A div with a single span child, everything unrendered. -/
def c1Tree : Node := .tag "div" [] false none [] [.tag "span" [] false none [] []]

/-- The tree after a first full render (caches filled, flags set). -/
def c1Rendered : Node := (renderNode [] c1Tree).2

/-- The rendered tree after an attribute mutation of the span child:
the child's flag is cleared, the parent's flag and cache are not. -/
def c1Mutated : Node := withChild 0 (attrOp [("id", .str "x")]) c1Rendered

/-- A heap of fresh, unattached node objects. -/
def baseHeap : Heap := fun _ => ⟨[], none, false⟩

/-- Node 2 inserted into node 0 by a constructor call. -/
def c2AfterFirst : Heap := (callOp baseHeap 0 [.node 2]).1

/-- The already-parented node 2 then inserted into node 1. -/
def c2AfterSecond : Heap := (callOp c2AfterFirst 1 [.node 2]).1

/-- A parent (id 0) holding children 1 and 2 in that order. -/
def twoChildHeap : Heap :=
  fun i => if i = 0 then ⟨[1, 2], none, false⟩ else ⟨[], some 0, false⟩

/-- A parent (id 0) holding the single child 1. -/
def oneChildHeap : Heap :=
  fun i => if i = 0 then ⟨[1], none, false⟩
           else ⟨[], if i = 1 then some 0 else none, false⟩

/-! ## Lemmas on the attribute container -/

theorem alookup_append_of_none {a : List (String × PyVal)} {k : String}
    (h : alookup a k = none) (b : List (String × PyVal)) :
    alookup (a ++ b) k = alookup b k := by
  induction a with
  | nil => rfl
  | cons kv rest ih =>
    rw [alookup] at h
    by_cases hk : kv.1 = k
    · rw [hk] at h; simp at h
    · cases kv with
      | mk k' v' =>
        simp only [List.cons_append, alookup]
        simp only [alookup] at h ih ⊢
        by_cases hk' : k' = k
        · simp [hk'] at h
        · simp only [hk', if_false] at h ⊢
          exact ih h

theorem assocMap_of_none {a : List (String × PyVal)} {k : String}
    (h : alookup a k = none) (f : PyVal → PyVal) : assocMap a k f = a := by
  induction a with
  | nil => rfl
  | cons kv rest ih =>
    cases kv with
    | mk k' v' =>
      simp only [alookup] at h
      by_cases hk' : k' = k
      · simp [hk'] at h
      · simp only [hk', if_false] at h
        simp only [assocMap, List.map] at ih ⊢
        simp [hk', ih h]

theorem assocMap_append (a b : List (String × PyVal)) (k : String)
    (f : PyVal → PyVal) :
    assocMap (a ++ b) k f = assocMap a k f ++ assocMap b k f := by
  simp [assocMap]

theorem renderAttrs_append (a b : List (String × PyVal)) :
    renderAttrs (a ++ b) = renderAttrs a ++ renderAttrs b := by
  induction a with
  | nil => simp [renderAttrs]
  | cons kv rest ih =>
    simp only [List.cons_append, renderAttrs, List.append_eq, ih,
      String.append_assoc]

theorem setItem_style_of_none {a : List (String × PyVal)}
    (h : alookup a "style" = none) (m : List (String × PyVal)) :
    setItem a "style" (.dict m) = a ++ [("style", .dict (dictUpdate [] m))] := by
  have hmulti : ¬ ("style" ∈ MULTI_VALUES_ATTRS) := by decide
  have hmap : "style" ∈ MAPPING_ATTRS := by decide
  rw [setItem, if_neg hmulti, if_pos hmap, h]
  simp only [Option.isNone_none, if_true]
  rw [assocMap_append, assocMap_of_none h]
  rfl

theorem setItem_style_of_last {a : List (String × PyVal)}
    (h : alookup a "style" = none) (d m : List (String × PyVal)) :
    setItem (a ++ [("style", .dict d)]) "style" (.dict m)
      = a ++ [("style", .dict (dictUpdate d m))] := by
  have hmulti : ¬ ("style" ∈ MULTI_VALUES_ATTRS) := by decide
  have hmap : "style" ∈ MAPPING_ATTRS := by decide
  have hl : alookup (a ++ [("style", PyVal.dict d)]) "style" = some (.dict d) := by
    rw [alookup_append_of_none h]; simp [alookup]
  rw [setItem, if_neg hmulti, if_pos hmap, hl]
  simp only [Option.isNone_some, Bool.false_eq_true, if_false]
  rw [assocMap_append, assocMap_of_none h]
  rfl

/-! ## Claim theorems -/

/-- C1: rendering a parent after an attribute mutation of its child
returns the stale cached string, not the recompute-from-scratch
render — the mutation clears only the child's own stability flag, and
Tag.render consults only the parent's local flag, so the claimed
cache-correctness equivalence fails at this input. -/
theorem c1_stale_cache_after_descendant_mutation :
    (renderNode [] c1Mutated).1 = .ok "<div><span></span></div>" ∧
    (renderNode [] (clearCache c1Mutated)).1
      = .ok "<div><span id=\x22x\x22></span></div>" ∧
    ("<div><span></span></div>" : String) ≠ "<div><span id=\x22x\x22></span></div>" :=
  ⟨rfl, rfl, by decide⟩

/-- C2: inserting node 2 into node 0 and then into node 1 leaves 2 in
both child lists with its parent reference pointing at 1 — _insert
never detaches an already-parented node, so the single-parent
invariant is violated by this two-step sequence. -/
theorem c2_no_detach_two_parents :
    (c2AfterSecond 0).childs = [2] ∧ (c2AfterSecond 1).childs = [2] ∧
    (c2AfterSecond 2).parent = some 1 :=
  ⟨rfl, rfl, rfl⟩

/-- C3: remove() never detaches any child — on the first child
(index 0) the truthiness guard on _own_index short-circuits and the
call silently no-ops, and on the second child (index 1) the guard
passes but the body's pop(i=...) keyword mismatches pop's idx
parameter, raising TypeError with the child still attached.  Both
paths contradict the claim that a parented node is removed, including
at position 0. -/
theorem c3_remove_never_removes :
    (removeOp twoChildHeap 1).2 = .ok () ∧
    ((removeOp twoChildHeap 1).1 0).childs = [1, 2] ∧
    ((removeOp twoChildHeap 1).1 1).parent = some 0 ∧
    (removeOp twoChildHeap 2).2 = .error .typeError ∧
    ((removeOp twoChildHeap 2).1 0).childs = [1, 2] ∧
    ((removeOp twoChildHeap 2).1 2).parent = some 0 :=
  ⟨rfl, rfl, rfl, rfl, rfl, rfl⟩

/-- C4: empty() on a node with two children leaves both children in
place — the map object built over self.pop is a lazy iterator that is
never consumed, so the child list is not emptied as the claim
requires. -/
theorem c4_empty_removes_nothing :
    ((emptyOp twoChildHeap 0) 0).childs = [1, 2] ∧
    ((emptyOp twoChildHeap 0) 0).childs.length ≠ 0 :=
  ⟨rfl, by decide⟩

/-- C5: a placeholder with no fixed content and no resolvable binding
raises StopIteration out of its own render instead of contributing an
empty string, and inside a parent's child-render join the escaping
StopIteration ends the generator, silently dropping the following
sibling from the output. -/
theorem c5_missing_content_raises_and_truncates :
    (renderNode [[]] (.content "x" none)).1 = .error .stopIteration ∧
    (renderNode [] (.tag "div" [] false none [] [.content "x" none, .raw "hi"])).1
      = .ok "<div></div>" ∧
    (Except.ok "<div></div>" : Except PyErr String) ≠ .ok "<div>hi</div>" := by
  refine ⟨rfl, rfl, fun hc => ?_⟩
  have : ("<div></div>" : String) = "<div>hi</div>" := Except.ok.inj hc
  simp at this

/-- C6: in compact mode the style-sheet renderer emits the rule header
and the declaration but no closing brace — the block-closing append
computes its string under Python's conditional-expression precedence,
so the repository's output differs from the claimed exact string. -/
theorem c6_css_compact_drops_closing_brace :
    cssRender [("html body", .dict [("color", .str "red")])] false
      = "<style>html body \x7b color: red; </style>" ∧
    cssRender [("html body", .dict [("color", .str "red")])] false
      ≠ "<style>html body \x7b color: red; \x7d</style>" :=
  ⟨rfl, by decide⟩

/-- C7: append on a fresh node raises TypeError without adding any
child — the content_receiver wrapper calls the decorated append with
(self, index, child) but append is declared (self, child) — while the
constructor-call insertion does splice a sequence exactly like three
single constructor calls. -/
theorem c7_append_type_error :
    (appendOp baseHeap 0 [.node 1]).2 = .error .typeError ∧
    ((appendOp baseHeap 0 [.node 1]).1 0).childs = [] ∧
    ((callOp baseHeap 0 [.seq [.node 1, .node 2, .node 3]]).1 0).childs
      = ((callOp (callOp (callOp baseHeap 0 [.node 1]).1 0 [.node 2]).1
          0 [.node 3]).1 0).childs :=
  ⟨rfl, rfl, rfl⟩

/-- C8: before() on a parented node raises ValueError before inserting
anything, because the reversed flattening slices with step
(1, 0)[True] = 0, while after() does insert multiple arguments in
left-to-right order. -/
theorem c8_before_value_error :
    (beforeOp oneChildHeap 1 [.node 2]).2 = .error .valueError ∧
    ((beforeOp oneChildHeap 1 [.node 2]).1 0).childs = [1] ∧
    ((afterOp oneChildHeap 1 [.node 2, .node 3]).1 0).childs = [1, 2, 3] ∧
    (afterOp oneChildHeap 1 [.node 2, .node 3]).2 = .ok () :=
  ⟨rfl, rfl, rfl, rfl⟩

/-- C9: writing the style key twice merges the two sub-mappings: on any
attribute container without a style key, css with color red followed
by css with border 1px renders the original attributes followed by a
style attribute holding both declarations in insertion order. -/
theorem c9_style_merge (a : List (String × PyVal))
    (h : alookup a "style" = none) :
    renderAttrs (cssOp (cssOp a [("color", .str "red")]) [("border", .str "1px")])
      = renderAttrs a ++ " style=\x22color: red; border: 1px;\x22" := by
  have h1 : cssOp a [("color", .str "red")]
      = a ++ [("style", .dict [("color", .str "red")])] := by
    show setItem a "style" (.dict [("color", .str "red")]) = _
    rw [setItem_style_of_none h]
    rfl
  have h2 : cssOp (a ++ [("style", .dict [("color", .str "red")])])
        [("border", .str "1px")]
      = a ++ [("style", .dict [("color", .str "red"), ("border", .str "1px")])] := by
    show setItem _ "style" (.dict [("border", .str "1px")]) = _
    rw [setItem_style_of_last h]
    rfl
  rw [h1, h2, renderAttrs_append]
  rfl

/-- Witness for C9 at the empty attribute container. -/
theorem c9_style_merge_witness :
    alookup [] "style" = none ∧
    renderAttrs (cssOp (cssOp [] [("color", PyVal.str "red")])
        [("border", PyVal.str "1px")])
      = renderAttrs [] ++ " style=\x22color: red; border: 1px;\x22" :=
  ⟨rfl, c9_style_merge [] rfl⟩

/-- C10: on any attribute container without a klass key, add_class
raises KeyError instead of initialising the class list, and without a
style key both hide and toggle raise KeyError as well — the special
keys are only ever created by assignment through the container's merge
rules. -/
theorem c10_add_class_key_error (a : List (String × PyVal)) (c : String)
    (hk : alookup a "klass" = none) (hs : alookup a "style" = none) :
    addClassOp a c = .error .keyError ∧ hideOp a = .error .keyError ∧
    toggleOp a = .error .keyError := by
  refine ⟨?_, ?_, ?_⟩
  · rw [addClassOp, hk]
  · rw [hideOp, hs]
  · rw [toggleOp, hs]

/-- Witness for C10 at a container holding only an id attribute. -/
theorem c10_add_class_key_error_witness :
    alookup [("id", PyVal.str "i")] "klass" = none ∧
    alookup [("id", PyVal.str "i")] "style" = none ∧
    (addClassOp [("id", PyVal.str "i")] "x" = .error .keyError ∧
     hideOp [("id", PyVal.str "i")] = .error .keyError ∧
     toggleOp [("id", PyVal.str "i")] = .error .keyError) :=
  ⟨rfl, rfl, c10_add_class_key_error _ "x" rfl rfl⟩

end TemPy
